import Mathlib

/-!
Verification of the flash-sale ("seckill") admission-and-inventory subsystem.

The definitions below are a shallow embedding of the TypeScript source:

* `SeckillStockManager` (Redis-backed variant in the server's redis utility
  module): `initStock`, `syncStockFromDB`, `decrementStock`, `getStock`,
  `acquireSeckillLock`, `releaseSeckillLock`;
* the in-memory mock variants of the same class (MockRedis-backed);
* the purchase route `POST /api/seckill` in `src/server/routes/seckill.ts`;
* the ORDER_PROCESSING consumer in `src/server/index.ts`;
* `MockRabbitMQ.processMessage` in the mock broker module.

State that lives in Redis or MongoDB is passed explicitly.  Redis integer
values are modelled as `Int` (Redis INCR/DECR are 64-bit, no overflow is
reachable here); a missing key is `none`.  Every store operation performed
by the stock manager is also recorded in an event trace so that ordering
claims (reconciliation before/after decrement, single-retry bounds) are
statable.
-/

namespace FlashSale

/-! ## Data model -/

/-- Product lifecycle status field (string enum in the source). -/
inductive PStatus
  | pending
  | active
  | ended
deriving DecidableEq

/-- Durable product record (collection `12a2d3dc_products`); only the fields
read by the seckill path are modelled. -/
structure Product where
  name : String
  stock : Int
  seckillPrice : Int
  startTime : Int
  endTime : Int
  status : PStatus
deriving DecidableEq

/-- Order status field (string enum in the source). -/
inductive OStatus
  | pending
  | confirmed
  | cancelled
deriving DecidableEq

/-- Durable order row (collection `12a2d3dc_orders`). -/
structure OrderRow where
  userId : String
  productId : String
  quantity : Int
  price : Int
  status : OStatus
  createdAt : Int
  updatedAt : Int
deriving DecidableEq

/-! ## Stock Ledger Manager (SeckillStockManager, Redis-backed variant) -/

/-- Per-product state touched by `SeckillStockManager`: the Redis counter at
key `product:stock:<id>` (`none` = key absent) and the durable
`Product.stock` field (`none` = product missing from the collection or its
stock field is not a number). -/
structure StockState where
  counter : Option Int
  dbStock : Option Int
deriving DecidableEq

/-- One primitive store operation performed by the stock manager, recorded
with its result where relevant. -/
inductive StoreEvent
  | decrEv (result : Int)
  | incrEv (result : Int)
  | dbReadEv (result : Option Int)
  | setEv (value : Int)
deriving DecidableEq

/-- Redis DECR: a missing key is treated as 0, then decremented. -/
def redisDecr (c : Option Int) : Int × Option Int :=
  let v := c.getD 0 - 1
  (v, some v)

/-- Redis INCR: a missing key is treated as 0, then incremented. -/
def redisIncr (c : Option Int) : Int × Option Int :=
  let v := c.getD 0 + 1
  (v, some v)

/-- `SeckillStockManager.initStock`: `redis.set(stockKey, stock)`. -/
def initStock (stock : Int) (s : StockState) : StockState × List StoreEvent :=
  ({ s with counter := some stock }, [StoreEvent.setEv stock])

/-- `SeckillStockManager.syncStockFromDB`: read `Product.stock` from the
durable ledger; when the product exists with a numeric stock, write that
value into the Redis counter via `initStock` and return it, otherwise
return 0 leaving the counter untouched. -/
def syncStockFromDB (s : StockState) : Int × StockState × List StoreEvent :=
  match s.dbStock with
  | some st =>
      let (s1, ev) := initStock st s
      (st, s1, StoreEvent.dbReadEv (some st) :: ev)
  | none => (0, s, [StoreEvent.dbReadEv none])

/-- `SeckillStockManager.decrementStock` (Redis-backed variant):
DECR; if the result is ≥ 0 report success; otherwise INCR back,
reconcile from the durable ledger, and when the ledger value is > 0 retry
the DECR exactly once (undoing it again if it also goes negative). -/
def decrementStock (s : StockState) : Bool × StockState × List StoreEvent :=
  let (newStock, c1) := redisDecr s.counter
  let s1 : StockState := { s with counter := c1 }
  if newStock ≥ 0 then
    (true, s1, [StoreEvent.decrEv newStock])
  else
    let (u, c2) := redisIncr s1.counter
    let s2 : StockState := { s1 with counter := c2 }
    let (dbStock, s3, evSync) := syncStockFromDB s2
    if dbStock > 0 then
      let (newStock2, c3) := redisDecr s3.counter
      let s4 : StockState := { s3 with counter := c3 }
      if newStock2 ≥ 0 then
        (true, s4,
          StoreEvent.decrEv newStock :: StoreEvent.incrEv u :: evSync
            ++ [StoreEvent.decrEv newStock2])
      else
        let (u2, c4) := redisIncr s4.counter
        (false, { s4 with counter := c4 },
          StoreEvent.decrEv newStock :: StoreEvent.incrEv u :: evSync
            ++ [StoreEvent.decrEv newStock2, StoreEvent.incrEv u2])
    else
      (false, s3,
        StoreEvent.decrEv newStock :: StoreEvent.incrEv u :: evSync)

/-- `SeckillStockManager.getStock` (Redis-backed variant): GET; on a missing
key fall back to `syncStockFromDB`.  (The NaN-value branch of the source is
unreachable here because counter values are integers by construction.) -/
def getStock (s : StockState) : Int × StockState × List StoreEvent :=
  match s.counter with
  | none => syncStockFromDB s
  | some v => (v, s, [])

/-- Number of DECR operations in a trace (used to bound retries). -/
def decrCount (evs : List StoreEvent) : Nat :=
  evs.countP fun e =>
    match e with
    | StoreEvent.decrEv _ => true
    | _ => false

/-! ## Admission Gate: the per-(productId, userId) reservation lock -/

/-- Fast-store state for one (productId, userId) reservation key, plus a
flag modelling the underlying store call throwing. -/
structure LockState where
  lockPresent : Bool
  storeFails : Bool
deriving DecidableEq

/-- `SeckillStockManager.acquireSeckillLock` (Redis-backed variant): a single
`SET key 1 NX EX ttl`; returns true iff the reply is OK; any thrown store
error is caught and reported as false. -/
def acquireSeckillLock (s : LockState) : Bool × LockState :=
  if s.storeFails then (false, s)
  else if s.lockPresent then (false, s)
  else (true, { s with lockPresent := true })

/-- `SeckillStockManager.releaseSeckillLock`: DEL, unconditional. -/
def releaseSeckillLock (s : LockState) : LockState :=
  { s with lockPresent := false }

/-- A primitive store operation of one of the two acquire variants. -/
inductive LockOp
  | checkExists
  | setEx
  | setNX
deriving DecidableEq

/-- The mock variant of acquireSeckillLock issues an EXISTS check and then,
separately, a SETEX. -/
def mockAcquireProg : List LockOp := [LockOp.checkExists, LockOp.setEx]

/-- The Redis-backed variant issues a single SET-NX-EX. -/
def nxAcquireProg : List LockOp := [LockOp.setNX]

/-- One thread running an acquire attempt: remaining operations and, once the
function has returned, its boolean result. -/
structure ThreadCfg where
  prog : List LockOp
  result : Option Bool
deriving DecidableEq

/-- Execute the next store operation of a thread against the shared lock key
(`lock` = the key exists).  `checkExists` on a present key returns false
immediately; otherwise the thread proceeds to its set.  `setEx` always
succeeds and returns true.  `setNX` returns true and creates the key iff it
was absent. -/
def stepThread (lock : Bool) (t : ThreadCfg) : Bool × ThreadCfg :=
  match t.result, t.prog with
  | some _, _ => (lock, t)
  | none, [] => (lock, t)
  | none, LockOp.checkExists :: rest =>
      if lock then (lock, { prog := [], result := some false })
      else (lock, { prog := rest, result := none })
  | none, LockOp.setEx :: rest => (true, { prog := rest, result := some true })
  | none, LockOp.setNX :: rest =>
      if lock then (lock, { prog := rest, result := some false })
      else (true, { prog := rest, result := some true })

/-- Two concurrent acquire attempts for the same (productId, userId) pair
sharing one lock key. -/
structure TwoThreads where
  lock : Bool
  ta : ThreadCfg
  tb : ThreadCfg
deriving DecidableEq

/-- Let thread A (if `pickA`) or thread B execute its next operation. -/
def schedStep (pickA : Bool) (c : TwoThreads) : TwoThreads :=
  if pickA then
    let (l, t) := stepThread c.lock c.ta
    { c with lock := l, ta := t }
  else
    let (l, t) := stepThread c.lock c.tb
    { c with lock := l, tb := t }

/-- Run an interleaving schedule (list of thread choices). -/
def runSched (c : TwoThreads) : List Bool → TwoThreads
  | [] => c
  | b :: bs => runSched (schedStep b c) bs

/-- How many of the two attempts returned true. -/
def trueCount (c : TwoThreads) : Nat :=
  (if c.ta.result = some true then 1 else 0) +
    (if c.tb.result = some true then 1 else 0)

/-- Shape invariant of a thread running the single-SETNX program. -/
def NXThread (t : ThreadCfg) : Prop :=
  t = { prog := [LockOp.setNX], result := none } ∨
  t = { prog := [], result := some true } ∨
  t = { prog := [], result := some false }

/-- Invariant: both threads run SETNX programs, at most one has returned
true, and none has while the key is still absent. -/
def NXInv (c : TwoThreads) : Prop :=
  NXThread c.ta ∧ NXThread c.tb ∧ trueCount c ≤ 1 ∧
    (c.lock = false → trueCount c = 0)

/-! ## Settlement consumer (ORDER_PROCESSING queue handler in index.ts) -/

/-- A settlement message as published by MessagePublisher.publishOrderMessage. -/
structure SettleMsg where
  orderId : String
  userId : String
  productId : String
deriving DecidableEq

/-- One WebSocketService.sendOrderStatus push notification. -/
structure PushEvent where
  userId : String
  orderId : String
  status : OStatus
deriving DecidableEq

/-- State touched by one delivery of a settlement message: the order row
matched by `_id = orderId` (none if absent) and the pushes sent so far. -/
structure ConsumerState where
  order : Option OrderRow
  pushes : List PushEvent
deriving DecidableEq

/-- The ORDER_PROCESSING consumer handler in `src/server/index.ts`: it
unconditionally runs `updateOne({_id: orderId}, {$set: {status: 'confirmed',
updatedAt: new Date()}})` and then `sendOrderStatus(userId, orderId,
'confirmed')`; it never reads the current Order.status. -/
def orderProcessingHandler (msg : SettleMsg) (now : Int) (s : ConsumerState) :
    ConsumerState :=
  { order := s.order.map fun o =>
      { o with status := OStatus.confirmed, updatedAt := now },
    pushes := s.pushes ++
      [{ userId := msg.userId, orderId := msg.orderId,
         status := OStatus.confirmed }] }

/-! ## The purchase route (POST /api/seckill in seckill.ts) -/

/-- The zod body schema: quantity is an integer with min 1 and max 10. -/
def seckillSchemaValid (quantity : Int) : Bool :=
  1 ≤ quantity && quantity ≤ 10

/-- The route's product lookup:
`findOne({_id: productId, status: 'active'})` — the stored product is
returned iff it exists AND its status field is active.  The current time is
not part of the query. -/
def seckillProductQuery (stored : Option Product) : Option Product :=
  match stored with
  | some p => if p.status = PStatus.active then some p else none
  | none => none

/-- The route's admission gate: the request proceeds past the product
precondition iff the lookup found a product (404 otherwise). -/
def seckillPrecheckPasses (stored : Option Product) : Bool :=
  (seckillProductQuery stored).isSome

/-- Modelled from the spec: the precondition the claim asserts — product
exists, status active, and the current time lies within
[startTime, endTime). -/
def specPrecheckPasses (now : Int) (stored : Option Product) : Bool :=
  match stored with
  | some p =>
      decide (p.status = PStatus.active) &&
        decide (p.startTime ≤ now) && decide (now < p.endTime)
  | none => false

/-- A request-scoped data field passed to a console logging call. -/
inductive LogField
  | errMessage
  | errStack
  | productIdF
  | buyerIdF
  | amountF
deriving DecidableEq

/-- A log record: severity (console.error vs console.log) and the data
fields the call site passes. -/
structure LogEntry where
  isError : Bool
  fields : List LogField
deriving DecidableEq

/-- The two console.error calls of the route's catch block pass only the
caught error's message and stack. -/
def catchLogs : List LogEntry :=
  [{ isError := true, fields := [LogField.errMessage] },
   { isError := true, fields := [LogField.errStack] }]

/-- Modelled from the spec: a log record counts as a reconciliation-debt
record only if it is error-severity and carries the productId, the buyerId
and the decremented amount. -/
def mentionsReconDebt (e : LogEntry) : Bool :=
  e.isError && e.fields.contains LogField.productIdF &&
    e.fields.contains LogField.buyerIdF && e.fields.contains LogField.amountF

/-- Responses of the purchase endpoint. -/
inductive SeckillResp
  | success (stockLeft : Int)
  | notFound
  | alreadyAttempted
  | soldOut
  | serverError
deriving DecidableEq

/-- Request-scoped environment of one POST /api/seckill call: the stored
product row, whether the order INSERT and the broker publish throw, and the
wall-clock time used for createdAt/updatedAt. -/
structure FlowEnv where
  stored : Option Product
  insertOrderThrows : Bool
  publishThrows : Bool
  now : Int
deriving DecidableEq

/-- Shared state the route touches: the product's stock state, the
(productId, userId) reservation key, the orders collection, and the
error-severity log records emitted. -/
structure FlowState where
  stock : StockState
  lockPresent : Bool
  orders : List OrderRow
  errorLogs : List LogEntry
deriving DecidableEq

/-- The POST /api/seckill handler body.  In source order: product lookup
(404 on miss), a display getStock, acquireSeckillLock (here the Redis-backed
variant with no store failure: succeeds iff the key is absent; 400
already-attempted otherwise), decrementStock (on failure: release the lock
and answer 400 sold-out), order INSERT (order row with quantity and price =
seckillPrice × quantity, status pending), publish of the settlement message,
final getStock and the success response.  A throw from the INSERT or the
publish lands in the catch block, which logs the error message and stack at
error severity, releases the lock, and answers 500. -/
def seckillPost (env : FlowEnv) (userId productId : String) (quantity : Int)
    (s : FlowState) : SeckillResp × FlowState :=
  match seckillProductQuery env.stored with
  | none => (SeckillResp.notFound, s)
  | some product =>
    let s1 : FlowState := { s with stock := (getStock s.stock).2.1 }
    if s1.lockPresent then (SeckillResp.alreadyAttempted, s1)
    else
      let dec := decrementStock s1.stock
      let s3 : FlowState := { s1 with lockPresent := true, stock := dec.2.1 }
      if dec.1 = false then
        (SeckillResp.soldOut, { s3 with lockPresent := false })
      else if env.insertOrderThrows then
        (SeckillResp.serverError,
         { s3 with lockPresent := false,
                   errorLogs := s3.errorLogs ++ catchLogs })
      else
        let order : OrderRow :=
          { userId := userId, productId := productId, quantity := quantity,
            price := product.seckillPrice * quantity, status := OStatus.pending,
            createdAt := env.now, updatedAt := env.now }
        let s4 : FlowState := { s3 with orders := s3.orders ++ [order] }
        if env.publishThrows then
          (SeckillResp.serverError,
           { s4 with lockPresent := false,
                     errorLogs := s4.errorLogs ++ catchLogs })
        else
          (SeckillResp.success (getStock s4.stock).1,
           { s4 with stock := (getStock s4.stock).2.1 })

/-! ## Mock broker (MockRabbitMQ.processMessage) -/

/-- A broker message; `retryCount` starts absent (the publisher does not set
it). -/
structure QueueMessage where
  id : String
  retryCount : Option Nat
deriving DecidableEq

/-- Console records emitted by processMessage. -/
inductive BrokerLog
  | successLog
  | retryLog (n : Nat)
  | dropLog
deriving DecidableEq

/-- `MockRabbitMQ.processMessage`: shift the head message and run the
consumers (outcome abstracted as `handlerFails`); on success it is done; on
failure compute retryCount+1 and re-enqueue the message when that is < 3,
otherwise drop it, emitting the dead-letter console record. -/
def processMessage (handlerFails : Bool) (queue : List QueueMessage) :
    List QueueMessage × List BrokerLog :=
  match queue with
  | [] => ([], [])
  | m :: rest =>
    if handlerFails then
      let retryCount := m.retryCount.getD 0 + 1
      if retryCount < 3 then
        (rest ++ [{ m with retryCount := some retryCount }],
         [BrokerLog.retryLog retryCount])
      else
        (rest, [BrokerLog.dropLog])
    else (rest, [BrokerLog.successLog])

/-- Iterate n failing deliveries, accumulating the log records. -/
def processFailingN :
    Nat → List QueueMessage × List BrokerLog → List QueueMessage × List BrokerLog
  | 0, st => st
  | n + 1, (q, logs) =>
      let step := processMessage true q
      processFailingN n (step.1, logs ++ step.2)

/-! ## Theorems -/

/-- C1. Evaluation of the code at the failing input: with the counter and the
durable stock both initialized to S = 1 (and no other component ever
decrementing the durable stock, which nothing in the repository does), two
sequential calls to `decrementStock` BOTH return true: the second call finds
the counter exhausted, reconciles it back to the full durable stock of 1 and
decrements again.  This contradicts the claimed bound of at most S = 1
successful decrements. -/
theorem decrementStock_oversells_after_exhaustion :
    (decrementStock { counter := some 1, dbStock := some 1 }).1 = true ∧
    (decrementStock
      (decrementStock { counter := some 1, dbStock := some 1 }).2.1).1 = true := by
  decide

/-- C3, counterexample.  On a cache miss (counter key absent, durable stock
5) `decrementStock` does NOT reconcile before attempting a decrement: its
very first store operation is a DECR (Redis evaluates the missing key as 0,
yielding −1) and the durable-ledger read happens only afterwards. -/
theorem decrementStock_cache_miss_decrements_before_db_read :
    (decrementStock { counter := none, dbStock := some 5 }).2.2 =
      [StoreEvent.decrEv (-1), StoreEvent.incrEv 0, StoreEvent.dbReadEv (some 5),
       StoreEvent.setEv 5, StoreEvent.decrEv 4] ∧
    ((decrementStock { counter := none, dbStock := some 5 }).2.2.head? =
      some (StoreEvent.decrEv (-1))) := by
  decide

/-- C3, amended.  On a cache miss with durable stock K, `getStock` rebuilds
the counter to exactly K before returning K; `decrementStock` first attempts
the raw decrement (undone immediately), then rebuilds the counter to exactly
K from the durable ledger, and only then lets the (retried) decrement
proceed, ending at K − 1 on success. -/
theorem cache_miss_reconciles_to_exact_db_stock (K : Int) :
    getStock { counter := none, dbStock := some K } =
      (K, { counter := some K, dbStock := some K },
       [StoreEvent.dbReadEv (some K), StoreEvent.setEv K]) ∧
    decrementStock { counter := none, dbStock := some K } =
      (if 0 < K then
        (true, { counter := some (K - 1), dbStock := some K },
         [StoreEvent.decrEv (-1), StoreEvent.incrEv 0, StoreEvent.dbReadEv (some K),
          StoreEvent.setEv K, StoreEvent.decrEv (K - 1)])
       else
        (false, { counter := some K, dbStock := some K },
         [StoreEvent.decrEv (-1), StoreEvent.incrEv 0, StoreEvent.dbReadEv (some K),
          StoreEvent.setEv K])) := by
  constructor
  · simp [getStock, syncStockFromDB, initStock]
  · by_cases hK : 0 < K
    · have h2 : K - 1 ≥ 0 := by omega
      simp [decrementStock, redisDecr, redisIncr, syncStockFromDB, initStock, hK, h2]
    · have hK' : ¬ (0 : Int) < K := hK
      simp [decrementStock, redisDecr, redisIncr, syncStockFromDB, initStock, hK']

/-- C5.  When the post-decrement counter value is below zero (the pre-value
c := counter.getD 0 is ≤ 0; a missing key behaves as 0) and the product
exists in the durable ledger with stock d, `decrementStock`:
increments the counter back (undo), overwrites it with the authoritative d,
retries the decrement exactly once more only when d > 0 (succeeding at
d − 1), otherwise returns false; the trace contains at most 2 DECRs, so it
never retries more than once. -/
theorem decrementStock_negative_branch (s : StockState) (d : Int)
    (hc : s.counter.getD 0 ≤ 0) (hd : s.dbStock = some d) :
    decrementStock s =
      (decide (0 < d),
       { counter := some (if 0 < d then d - 1 else d), dbStock := some d },
       StoreEvent.decrEv (s.counter.getD 0 - 1) :: StoreEvent.incrEv (s.counter.getD 0) ::
         StoreEvent.dbReadEv (some d) :: StoreEvent.setEv d ::
         (if 0 < d then [StoreEvent.decrEv (d - 1)] else [])) ∧
    decrCount (decrementStock s).2.2 ≤ 2 := by
  have h1 : ¬ (s.counter.getD 0 - 1 ≥ 0) := by omega
  have hmain : decrementStock s =
      (decide (0 < d),
       { counter := some (if 0 < d then d - 1 else d), dbStock := some d },
       StoreEvent.decrEv (s.counter.getD 0 - 1) :: StoreEvent.incrEv (s.counter.getD 0) ::
         StoreEvent.dbReadEv (some d) :: StoreEvent.setEv d ::
         (if 0 < d then [StoreEvent.decrEv (d - 1)] else [])) := by
    by_cases hd0 : 0 < d
    · have h2 : d - 1 ≥ 0 := by omega
      simp [decrementStock, redisDecr, redisIncr, syncStockFromDB, initStock,
        hd, h1, hd0, h2, sub_add_cancel]
    · simp [decrementStock, redisDecr, redisIncr, syncStockFromDB, initStock,
        hd, h1, hd0, sub_add_cancel]
  refine ⟨hmain, ?_⟩
  rw [hmain]
  by_cases hd0 : 0 < d <;> simp [decrCount, hd0]

/-- C5, witness: concrete run with counter 0 and durable stock 3. -/
theorem decrementStock_negative_branch_witness :
    decrementStock { counter := some 0, dbStock := some 3 } =
      (true, { counter := some 2, dbStock := some 3 },
       [StoreEvent.decrEv (-1), StoreEvent.incrEv 0, StoreEvent.dbReadEv (some 3),
        StoreEvent.setEv 3, StoreEvent.decrEv 2]) := by
  have h := (decrementStock_negative_branch { counter := some 0, dbStock := some 3 } 3
    (by decide) rfl).1
  rw [h]
  decide

/-- C4, counterexample.  The mock variant of acquireSeckillLock is a separate
exists-check followed by a set: under the interleaving A-check, B-check,
A-set, B-set of two concurrent calls for the same pair, BOTH calls return
true — and at the moment B performs its set (and returns true) the
reservation key already exists, refuting both the claimed atomic
set-if-absent shape and the claimed "true iff no reservation exists". -/
theorem mockAcquire_double_admission :
    mockAcquireProg = [LockOp.checkExists, LockOp.setEx] ∧
    (runSched
      { lock := false,
        ta := { prog := mockAcquireProg, result := none },
        tb := { prog := mockAcquireProg, result := none } }
      [true, false, true]).lock = true ∧
    (runSched
      { lock := false,
        ta := { prog := mockAcquireProg, result := none },
        tb := { prog := mockAcquireProg, result := none } }
      [true, false, true]).tb.result = none ∧
    (runSched
      { lock := false,
        ta := { prog := mockAcquireProg, result := none },
        tb := { prog := mockAcquireProg, result := none } }
      [true, false, true, false]).ta.result = some true ∧
    (runSched
      { lock := false,
        ta := { prog := mockAcquireProg, result := none },
        tb := { prog := mockAcquireProg, result := none } }
      [true, false, true, false]).tb.result = some true := by
  decide

theorem nxInv_step (b : Bool) (c : TwoThreads) (h : NXInv c) :
    NXInv (schedStep b c) := by
  obtain ⟨l, ta, tb⟩ := c
  obtain ⟨hta, htb, hcnt, hz⟩ := h
  rcases hta with rfl | rfl | rfl <;> rcases htb with rfl | rfl | rfl <;>
    cases l <;> cases b <;>
    simp_all [NXInv, NXThread, schedStep, stepThread, trueCount]

theorem nxInv_runSched :
    ∀ (sched : List Bool) (c : TwoThreads), NXInv c → NXInv (runSched c sched)
  | [], _, h => h
  | b :: bs, c, h => nxInv_runSched bs (schedStep b c) (nxInv_step b c h)

/-- C4, amended.  The Redis-backed `acquireSeckillLock` returns true iff the
store call does not fail AND no reservation key exists (fail closed on store
failure), creating the key exactly when it returns true; and because it is a
single atomic SET-NX operation, under EVERY interleaving of two concurrent
acquire attempts for the same pair at most one returns true.  The mock
variant, by contrast, is a separate exists-check followed by a set and
admits double admission (see the counterexample). -/
theorem acquireSeckillLock_atomic_and_fail_closed :
    (∀ s : LockState,
       (acquireSeckillLock s).1 = (!s.storeFails && !s.lockPresent) ∧
       (acquireSeckillLock s).2.lockPresent =
         (s.lockPresent || (acquireSeckillLock s).1) ∧
       (acquireSeckillLock s).2.storeFails = s.storeFails) ∧
    (∀ sched : List Bool,
       trueCount (runSched
         { lock := false,
           ta := { prog := nxAcquireProg, result := none },
           tb := { prog := nxAcquireProg, result := none } } sched) ≤ 1) := by
  constructor
  · intro s
    obtain ⟨lp, sf⟩ := s
    cases lp <;> cases sf <;> simp [acquireSeckillLock]
  · intro sched
    have h := nxInv_runSched sched
      { lock := false,
        ta := { prog := nxAcquireProg, result := none },
        tb := { prog := nxAcquireProg, result := none } }
      (by exact ⟨Or.inl rfl, Or.inl rfl, by decide, by decide⟩)
    exact h.2.2.1

/-- C2, counterexample.  Redelivering a settlement message for an order that
is already confirmed (updatedAt = 5, one push already sent) at time 9 is NOT
a no-op: the handler rewrites updatedAt to 9 and emits a second, duplicate
push notification. -/
theorem settlement_redelivery_not_noop :
    (orderProcessingHandler
        { orderId := "o1", userId := "u1", productId := "p1" } 9
        { order := some
            { userId := "u1", productId := "p1", quantity := 1, price := 100,
              status := OStatus.confirmed, createdAt := 1, updatedAt := 5 },
          pushes := [{ userId := "u1", orderId := "o1",
                       status := OStatus.confirmed }] }).order.map
        OrderRow.updatedAt = some 9 ∧
    (orderProcessingHandler
        { orderId := "o1", userId := "u1", productId := "p1" } 9
        { order := some
            { userId := "u1", productId := "p1", quantity := 1, price := 100,
              status := OStatus.confirmed, createdAt := 1, updatedAt := 5 },
          pushes := [{ userId := "u1", orderId := "o1",
                       status := OStatus.confirmed }] }).pushes.length = 2 := by
  decide

/-- C2, amended.  The settlement handler is NOT idempotent: it checks nothing
before mutating — on every delivery it unconditionally sets the referenced
order's status to confirmed, overwrites updatedAt with the delivery time,
and emits a push notification, so a redelivery after confirmation changes
Order.updatedAt and duplicates the push. -/
theorem settlement_handler_unconditional (msg : SettleMsg) (now : Int)
    (o : OrderRow) (ps : List PushEvent) :
    orderProcessingHandler msg now { order := some o, pushes := ps } =
      { order := some { o with status := OStatus.confirmed, updatedAt := now },
        pushes := ps ++ [{ userId := msg.userId, orderId := msg.orderId,
                           status := OStatus.confirmed }] } := rfl

/-- C6, counterexample.  A product whose status field is active but whose
sale window [0, 10) has long passed (request time 100) still passes the
route's precondition gate — the code checks only existence and
status == active and never consults the clock, while the spec-modelled
precondition rejects the request. -/
theorem seckill_accepts_outside_time_window :
    seckillPrecheckPasses
      (some { name := "flash", stock := 5, seckillPrice := 10,
              startTime := 0, endTime := 10, status := PStatus.active }) = true ∧
    specPrecheckPasses 100
      (some { name := "flash", stock := 5, seckillPrice := 10,
              startTime := 0, endTime := 10, status := PStatus.active }) = false := by
  decide

/-- C6, amended.  The purchase endpoint's precondition is exactly "the
product exists and its status field is active", evaluated by one findOne
query; no comparison with the current time is performed, so requests outside
[startTime, endTime) are not rejected when status is still active. -/
theorem seckillPrecheck_only_status (stored : Option Product) :
    seckillPrecheckPasses stored =
      (match stored with
       | some p => decide (p.status = PStatus.active)
       | none => false) := by
  cases stored with
  | none => rfl
  | some p =>
      by_cases h : p.status = PStatus.active <;>
        simp [seckillPrecheckPasses, seckillProductQuery, h]

/-- C7.  Whenever the purchase flow passes the product gate and acquires the
reservation (the lock key was absent), and any later step fails — the
decrement returns false, or the order INSERT or the publish throws — the
handler releases the reservation before answering, and the answer is never
the success response; when the decrement is what failed, the answer is the
sold-out failure. -/
theorem seckillPost_releases_lock_on_failure
    (env : FlowEnv) (userId productId : String) (q : Int) (s : FlowState)
    (hp : (seckillProductQuery env.stored).isSome = true)
    (hlock : s.lockPresent = false)
    (hfail : (decrementStock (getStock s.stock).2.1).1 = false ∨
             env.insertOrderThrows = true ∨ env.publishThrows = true) :
    (seckillPost env userId productId q s).2.lockPresent = false ∧
    ((decrementStock (getStock s.stock).2.1).1 = false →
      (seckillPost env userId productId q s).1 = SeckillResp.soldOut) ∧
    ∀ x : Int, (seckillPost env userId productId q s).1 ≠ SeckillResp.success x := by
  obtain ⟨p, hpp⟩ := Option.isSome_iff_exists.mp hp
  by_cases hdec : (decrementStock (getStock s.stock).2.1).1 = false
  · simp [seckillPost, hpp, hlock, hdec]
  · rcases hfail with h | h | h
    · exact absurd h hdec
    · simp [seckillPost, hpp, hlock, hdec, h]
    · by_cases hins : env.insertOrderThrows = true
      · simp [seckillPost, hpp, hlock, hdec, hins]
      · simp at hins
        simp [seckillPost, hpp, hlock, hdec, hins, h]

/-- C7, witness: sold-out product (counter and durable stock 0): the
decrement fails, the response is sold-out and the reservation is released. -/
theorem seckillPost_releases_lock_on_failure_witness :
    (seckillPost
      { stored := some { name := "flash", stock := 0, seckillPrice := 10,
                         startTime := 0, endTime := 10, status := PStatus.active },
        insertOrderThrows := false, publishThrows := false, now := 0 }
      "u1" "p1" 1
      { stock := { counter := some 0, dbStock := some 0 }, lockPresent := false,
        orders := [], errorLogs := [] }).1 = SeckillResp.soldOut ∧
    (seckillPost
      { stored := some { name := "flash", stock := 0, seckillPrice := 10,
                         startTime := 0, endTime := 10, status := PStatus.active },
        insertOrderThrows := false, publishThrows := false, now := 0 }
      "u1" "p1" 1
      { stock := { counter := some 0, dbStock := some 0 }, lockPresent := false,
        orders := [], errorLogs := [] }).2.lockPresent = false := by
  have h := seckillPost_releases_lock_on_failure
    { stored := some { name := "flash", stock := 0, seckillPrice := 10,
                       startTime := 0, endTime := 10, status := PStatus.active },
      insertOrderThrows := false, publishThrows := false, now := 0 }
    "u1" "p1" 1
    { stock := { counter := some 0, dbStock := some 0 }, lockPresent := false,
      orders := [], errorLogs := [] }
    (by decide) rfl (Or.inl (by decide))
  exact ⟨h.2.1 (by decide), h.1⟩

/-- C9, counterexample.  With stock consumed (counter 5 → 4) and the order
INSERT throwing, the endpoint does not report success (it answers 500), and
it does emit error-severity records — but none of them carries the
productId, the buyerId or the decremented amount, so no reconciliation-debt
record in the claimed sense is written, and the consumed unit is not
restored. -/
theorem insert_failure_logs_lack_recon_context :
    (seckillPost
      { stored := some { name := "flash", stock := 5, seckillPrice := 10,
                         startTime := 0, endTime := 10, status := PStatus.active },
        insertOrderThrows := true, publishThrows := false, now := 0 }
      "u1" "p1" 2
      { stock := { counter := some 5, dbStock := some 5 }, lockPresent := false,
        orders := [], errorLogs := [] }).1 = SeckillResp.serverError ∧
    (seckillPost
      { stored := some { name := "flash", stock := 5, seckillPrice := 10,
                         startTime := 0, endTime := 10, status := PStatus.active },
        insertOrderThrows := true, publishThrows := false, now := 0 }
      "u1" "p1" 2
      { stock := { counter := some 5, dbStock := some 5 }, lockPresent := false,
        orders := [], errorLogs := [] }).2.stock.counter = some 4 ∧
    (seckillPost
      { stored := some { name := "flash", stock := 5, seckillPrice := 10,
                         startTime := 0, endTime := 10, status := PStatus.active },
        insertOrderThrows := true, publishThrows := false, now := 0 }
      "u1" "p1" 2
      { stock := { counter := some 5, dbStock := some 5 }, lockPresent := false,
        orders := [], errorLogs := [] }).2.errorLogs ≠ [] ∧
    ((seckillPost
      { stored := some { name := "flash", stock := 5, seckillPrice := 10,
                         startTime := 0, endTime := 10, status := PStatus.active },
        insertOrderThrows := true, publishThrows := false, now := 0 }
      "u1" "p1" 2
      { stock := { counter := some 5, dbStock := some 5 }, lockPresent := false,
        orders := [], errorLogs := [] }).2.errorLogs.all
        fun e => !mentionsReconDebt e) = true := by
  decide

/-- C9, amended.  If the decrement succeeded and the order INSERT throws,
the endpoint answers the generic 500 failure (never success), releases the
reservation, and appends exactly the catch block's two error-severity
records, which carry only the error message and stack — no productId,
buyerId or decremented amount, so the stock-consumed-but-no-order case is
logged only generically, not as a context-rich reconciliation-debt record. -/
theorem insert_failure_generic_error_log
    (env : FlowEnv) (userId productId : String) (q : Int) (s : FlowState)
    (hp : (seckillProductQuery env.stored).isSome = true)
    (hlock : s.lockPresent = false)
    (hdec : (decrementStock (getStock s.stock).2.1).1 = true)
    (hins : env.insertOrderThrows = true) :
    (seckillPost env userId productId q s).1 = SeckillResp.serverError ∧
    (seckillPost env userId productId q s).2.lockPresent = false ∧
    (seckillPost env userId productId q s).2.errorLogs = s.errorLogs ++ catchLogs ∧
    (catchLogs.all fun e => !mentionsReconDebt e) = true := by
  obtain ⟨p, hpp⟩ := Option.isSome_iff_exists.mp hp
  have hdec' : ¬ (decrementStock (getStock s.stock).2.1).1 = false := by
    simp [hdec]
  refine ⟨?_, ?_, ?_, by decide⟩ <;>
    simp [seckillPost, hpp, hlock, hdec', hins]

/-- C9, witness: concrete run of the amended statement. -/
theorem insert_failure_generic_error_log_witness :
    (seckillPost
      { stored := some { name := "gadget", stock := 3, seckillPrice := 20,
                         startTime := 0, endTime := 10, status := PStatus.active },
        insertOrderThrows := true, publishThrows := false, now := 1 }
      "u2" "p2" 1
      { stock := { counter := some 3, dbStock := some 3 }, lockPresent := false,
        orders := [], errorLogs := [] }).1 = SeckillResp.serverError ∧
    (seckillPost
      { stored := some { name := "gadget", stock := 3, seckillPrice := 20,
                         startTime := 0, endTime := 10, status := PStatus.active },
        insertOrderThrows := true, publishThrows := false, now := 1 }
      "u2" "p2" 1
      { stock := { counter := some 3, dbStock := some 3 }, lockPresent := false,
        orders := [], errorLogs := [] }).2.errorLogs =
      [] ++ catchLogs := by
  have h := insert_failure_generic_error_log
    { stored := some { name := "gadget", stock := 3, seckillPrice := 20,
                       startTime := 0, endTime := 10, status := PStatus.active },
      insertOrderThrows := true, publishThrows := false, now := 1 }
    "u2" "p2" 1
    { stock := { counter := some 3, dbStock := some 3 }, lockPresent := false,
      orders := [], errorLogs := [] }
    (by decide) rfl (by decide) rfl
  exact ⟨h.1, h.2.2.1⟩

/-- C10.  For a validated quantity q (1 ≤ q ≤ 10) and a successful run
(product gate passed, reservation free, counter holding c ≥ 1, no throw),
the endpoint answers success: the stock counter drops by exactly ONE unit —
from c to c − 1, independent of q, since decrementStock takes no quantity —
while the persisted order records quantity = q and
price = seckillPrice × q. -/
theorem success_consumes_one_unit_bills_quantity
    (env : FlowEnv) (p : Product) (userId productId : String) (q c : Int)
    (s : FlowState)
    (_hq : seckillSchemaValid q = true)
    (hp : seckillProductQuery env.stored = some p)
    (hlock : s.lockPresent = false)
    (hc : s.stock.counter = some c) (hc1 : 1 ≤ c)
    (hins : env.insertOrderThrows = false)
    (hpub : env.publishThrows = false) :
    seckillPost env userId productId q s =
      (SeckillResp.success (c - 1),
       { stock := { counter := some (c - 1), dbStock := s.stock.dbStock },
         lockPresent := true,
         orders := s.orders ++
           [{ userId := userId, productId := productId, quantity := q,
              price := p.seckillPrice * q, status := OStatus.pending,
              createdAt := env.now, updatedAt := env.now }],
         errorLogs := s.errorLogs }) := by
  have hge : c - 1 ≥ 0 := by omega
  simp [seckillPost, hp, hlock, getStock, hc, decrementStock, redisDecr,
    hge, hins, hpub]

/-- C10, witness: quantity 10 with counter 1 — the success consumes one
counted unit (1 → 0) while the order bills 10 units at price 100. -/
theorem success_consumes_one_unit_witness :
    seckillPost
      { stored := some { name := "flash", stock := 50, seckillPrice := 10,
                         startTime := 0, endTime := 10, status := PStatus.active },
        insertOrderThrows := false, publishThrows := false, now := 7 }
      "u1" "p1" 10
      { stock := { counter := some 1, dbStock := some 50 }, lockPresent := false,
        orders := [], errorLogs := [] } =
      (SeckillResp.success 0,
       { stock := { counter := some 0, dbStock := some 50 },
         lockPresent := true,
         orders := [{ userId := "u1", productId := "p1", quantity := 10,
                      price := 100, status := OStatus.pending,
                      createdAt := 7, updatedAt := 7 }],
         errorLogs := [] }) := by
  have h := success_consumes_one_unit_bills_quantity
    { stored := some { name := "flash", stock := 50, seckillPrice := 10,
                       startTime := 0, endTime := 10, status := PStatus.active },
      insertOrderThrows := false, publishThrows := false, now := 7 }
    { name := "flash", stock := 50, seckillPrice := 10,
      startTime := 0, endTime := 10, status := PStatus.active }
    "u1" "p1" 10 1
    { stock := { counter := some 1, dbStock := some 50 }, lockPresent := false,
      orders := [], errorLogs := [] }
    (by decide) (by decide) rfl rfl (by decide) rfl rfl
  rw [h]
  decide

/-- C8.  In MockRabbitMQ.processMessage a failing delivery whose message has
already reached the retry bound (retryCount + 1 ≥ 3) is NOT requeued and the
dead-letter record is emitted; every processed delivery emits a log record
(so no message is dropped silently); and a fresh message under persistent
handler failure is delivered exactly 3 times — requeued on the first two
failures with retryCount 1 and 2, then dropped with the dead-letter record,
after which nothing remains to retry. -/
theorem broker_retry_bounded_and_dead_letter_logged :
    (∀ (m : QueueMessage) (rest : List QueueMessage) (r : Nat),
       m.retryCount = some r → 3 ≤ r + 1 →
       processMessage true (m :: rest) = (rest, [BrokerLog.dropLog])) ∧
    (∀ (handlerFails : Bool) (m : QueueMessage) (rest : List QueueMessage),
       (processMessage handlerFails (m :: rest)).2 ≠ []) ∧
    processFailingN 3 ([{ id := "order_o1", retryCount := none }], []) =
      ([], [BrokerLog.retryLog 1, BrokerLog.retryLog 2, BrokerLog.dropLog]) ∧
    processFailingN 4 ([{ id := "order_o1", retryCount := none }], []) =
      ([], [BrokerLog.retryLog 1, BrokerLog.retryLog 2, BrokerLog.dropLog]) := by
  refine ⟨?_, ?_, by decide, by decide⟩
  · intro m rest r hm hr
    have hlt : ¬ (m.retryCount.getD 0 + 1 < 3) := by
      rw [hm]
      simp only [Option.getD_some]
      omega
    simp [processMessage, hlt]
  · intro hf m rest
    cases hf with
    | false => simp [processMessage]
    | true =>
        simp only [processMessage]
        split <;> (try split) <;> simp

/-- C8, witness: a message already at retryCount 2 is dropped, with the
dead-letter record emitted. -/
theorem broker_retry_bounded_witness :
    processMessage true [{ id := "order_o1", retryCount := some 2 }] =
      ([], [BrokerLog.dropLog]) :=
  broker_retry_bounded_and_dead_letter_logged.1
    { id := "order_o1", retryCount := some 2 } [] 2 rfl (by decide)

end FlashSale
